import Mathlib

/-!
Verification development for the open_AR_Sandbox calibration core.

The repository ships a usage tutorial notebook (notebooks/tutorials/calibrate
sandbox.ipynb) for its calibration subsystem; the module it drives
(sandbox/sandbox.py) is not part of the source tree given here, only its
caller is.  The data model and the operations below are therefore modelled
from the specification (spec.md) and, where the notebook's captured output
shows concrete behaviour of the missing module (the import-time kinect
RuntimeWarning, the "using last kinect instance created" fallback, the
rot_angle IntSlider declaration), from that evidence.

Real-valued quantities (scale factor, depth millimetres) are embedded as
rationals; machine integers are unbounded Int/Nat, as the original Python
has arbitrary-precision integers.
-/

namespace Sandbox

/-- Modelled from the spec: auxiliary overlay sub-region (legend / profile
area / hot area), an out-of-scope definition that is passed through and
persisted; embedded as a plain rectangle. -/
structure SubRegion where
  x : Int
  y : Int
  width : Int
  height : Int
deriving DecidableEq, Repr

/-- Modelled from the spec: the CalibrationProfile of spec §3, the single
source of truth for the sensor→projector mapping, with every field of the
data model; the missing sandbox/sandbox.py holds the original class. -/
structure CalibrationProfile where
  rot_angle : Int
  x_lim : Int × Int
  y_lim : Int × Int
  x_pos : Int
  y_pos : Int
  scale_factor : Rat
  z_range : Rat × Rat
  box_width : Rat
  box_height : Rat
  contours : Bool
  n_contours : Nat
  cmap : String
  legend : Option SubRegion
  profile : Option SubRegion
  hot_area : Option SubRegion
deriving DecidableEq, Repr

/-- Modelled from the spec: the §3 invariants — `x_min < x_max`,
`y_min < y_max`, `z_min < z_max`, `scale_factor > 0`, `n_contours ≥ 0`,
`rot_angle` normalized into [-180, 180]. -/
def validProfile (p : CalibrationProfile) : Bool :=
  decide (-180 ≤ p.rot_angle) && decide (p.rot_angle ≤ 180) &&
  decide (p.x_lim.1 < p.x_lim.2) && decide (p.y_lim.1 < p.y_lim.2) &&
  decide (p.z_range.1 < p.z_range.2) && decide (0 < p.scale_factor) &&
  decide (0 ≤ p.n_contours)

/-- Modelled from the spec: `defaults()`, the deterministic invariant-valid
baseline profile (rot_angle 0, full-frame limits for a 640×480 sensor,
scale 1.0, conservative z_range). -/
def defaults : CalibrationProfile where
  rot_angle := 0
  x_lim := (0, 640)
  y_lim := (0, 480)
  x_pos := 0
  y_pos := 0
  scale_factor := 1
  z_range := (700, 1500)
  box_width := 1000
  box_height := 800
  contours := true
  n_contours := 50
  cmap := "viridis"
  legend := none
  profile := none
  hot_area := none

/-- A single serialized field value of the calibration record. -/
inductive FieldValue where
  | intV (n : Int)
  | ratV (q : Rat)
  | pairIntV (a b : Int)
  | pairRatV (a b : Rat)
  | boolV (b : Bool)
  | natV (n : Nat)
  | strV (s : String)
  | regionV (r : Option SubRegion)
deriving DecidableEq, Repr

/-- Modelled from the spec: the versioned, field-complete calibration record
of §6, a keyed sequence of field values. -/
abbrev PRecord := List (String × FieldValue)

/-- First value stored under key `k`, later (extra, unknown) entries are
ignored, as §6 requires forward-compatible reads. -/
def recFind (k : String) : PRecord → Option FieldValue
  | [] => none
  | (key, v) :: rest => if k = key then some v else recFind k rest

/-- Modelled from the spec: `save` serializes every field of §3 to a stable,
versioned record. -/
def serializeProfile (p : CalibrationProfile) : PRecord :=
  [("version", FieldValue.natV 1),
   ("rot_angle", FieldValue.intV p.rot_angle),
   ("x_lim", FieldValue.pairIntV p.x_lim.1 p.x_lim.2),
   ("y_lim", FieldValue.pairIntV p.y_lim.1 p.y_lim.2),
   ("x_pos", FieldValue.intV p.x_pos),
   ("y_pos", FieldValue.intV p.y_pos),
   ("scale_factor", FieldValue.ratV p.scale_factor),
   ("z_range", FieldValue.pairRatV p.z_range.1 p.z_range.2),
   ("box_width", FieldValue.ratV p.box_width),
   ("box_height", FieldValue.ratV p.box_height),
   ("contours", FieldValue.boolV p.contours),
   ("n_contours", FieldValue.natV p.n_contours),
   ("cmap", FieldValue.strV p.cmap),
   ("legend", FieldValue.regionV p.legend),
   ("profile", FieldValue.regionV p.profile),
   ("hot_area", FieldValue.regionV p.hot_area)]

def decodeIntF : Option FieldValue → Option Int
  | some (FieldValue.intV n) => some n
  | _ => none

def decodeRatF : Option FieldValue → Option Rat
  | some (FieldValue.ratV q) => some q
  | _ => none

def decodePairIntF : Option FieldValue → Option (Int × Int)
  | some (FieldValue.pairIntV a b) => some (a, b)
  | _ => none

def decodePairRatF : Option FieldValue → Option (Rat × Rat)
  | some (FieldValue.pairRatV a b) => some (a, b)
  | _ => none

def decodeBoolF : Option FieldValue → Option Bool
  | some (FieldValue.boolV b) => some b
  | _ => none

def decodeNatF : Option FieldValue → Option Nat
  | some (FieldValue.natV n) => some n
  | _ => none

def decodeStrF : Option FieldValue → Option String
  | some (FieldValue.strV s) => some s
  | _ => none

def decodeRegionF : Option FieldValue → Option (Option SubRegion)
  | some (FieldValue.regionV r) => some r
  | _ => none

/-- Modelled from the spec: the reader half of persistence — every required
field must be present with the agreed type, unknown extra fields are
ignored; `none` is the parse failure of a missing or ill-typed field. -/
def parseRecord (r : PRecord) : Option CalibrationProfile := do
  let _vers ← decodeNatF (recFind "version" r)
  let rot ← decodeIntF (recFind "rot_angle" r)
  let xl ← decodePairIntF (recFind "x_lim" r)
  let yl ← decodePairIntF (recFind "y_lim" r)
  let xp ← decodeIntF (recFind "x_pos" r)
  let yp ← decodeIntF (recFind "y_pos" r)
  let sf ← decodeRatF (recFind "scale_factor" r)
  let zr ← decodePairRatF (recFind "z_range" r)
  let bw ← decodeRatF (recFind "box_width" r)
  let bh ← decodeRatF (recFind "box_height" r)
  let ct ← decodeBoolF (recFind "contours" r)
  let nc ← decodeNatF (recFind "n_contours" r)
  let cm ← decodeStrF (recFind "cmap" r)
  let lg ← decodeRegionF (recFind "legend" r)
  let pr ← decodeRegionF (recFind "profile" r)
  let ha ← decodeRegionF (recFind "hot_area" r)
  pure { rot_angle := rot, x_lim := xl, y_lim := yl, x_pos := xp, y_pos := yp,
         scale_factor := sf, z_range := zr, box_width := bw, box_height := bh,
         contours := ct, n_contours := nc, cmap := cm,
         legend := lg, profile := pr, hot_area := ha }

/-- The persistent store: readable paths with their stored record.  A path
absent from the store is unreadable. -/
abbrev FileSystem := List (String × PRecord)

def fsFind (path : String) : FileSystem → Option PRecord
  | [] => none
  | (q, r) :: rest => if path = q then some r else fsFind path rest

/-- Load failures of spec §4.2: `ioErr` for an unreadable path, `parseErr`
for a missing required field or an invariant-violating field value. -/
inductive LoadError where
  | ioErr
  | parseErr
deriving DecidableEq, Repr

/-- Modelled from the spec: `Calibration.save` — writes the full serialized
record at the given path. -/
def save (fs : FileSystem) (path : String) (p : CalibrationProfile) : FileSystem :=
  (path, serializeProfile p) :: fs

/-- Modelled from the spec: `Calibration.load` — IoError if the path is
unreadable, ParseError if a required field is missing or the decoded profile
violates a §3 invariant; a successful load has passed invariant
validation. -/
def load (fs : FileSystem) (path : String) : Except LoadError CalibrationProfile :=
  match fsFind path fs with
  | none => Except.error LoadError.ioErr
  | some r =>
    match parseRecord r with
    | none => Except.error LoadError.parseErr
    | some p =>
      if validProfile p then Except.ok p else Except.error LoadError.parseErr

/-- A caller holding a current profile performs a load: on success the
loaded profile replaces it, on failure the caller's profile is unchanged
and the error is surfaced. -/
def loadInto (cur : CalibrationProfile) (fs : FileSystem) (path : String) :
    CalibrationProfile × Option LoadError :=
  match load fs path with
  | Except.ok p => (p, none)
  | Except.error e => (cur, some e)

/-- The independently settable fields of the control surface (spec §6). -/
inductive ProfileField where
  | rot_angle
  | x_lim
  | y_lim
  | x_pos
  | y_pos
  | scale_factor
  | z_range
  | box_width
  | box_height
  | contours
  | n_contours
  | cmap
  | legend
  | profile
  | hot_area
deriving DecidableEq, Repr

/-- Mutation failure of spec §7. -/
inductive MutError where
  | invalidProfileField
deriving DecidableEq, Repr

/-- The raw field update, before invariant checking: a type-matching value
replaces the addressed field, anything else touches nothing. -/
def rawSet (p : CalibrationProfile) (f : ProfileField) (v : FieldValue) :
    CalibrationProfile :=
  match f, v with
  | ProfileField.rot_angle, FieldValue.intV a => { p with rot_angle := a }
  | ProfileField.x_lim, FieldValue.pairIntV a b => { p with x_lim := (a, b) }
  | ProfileField.y_lim, FieldValue.pairIntV a b => { p with y_lim := (a, b) }
  | ProfileField.x_pos, FieldValue.intV a => { p with x_pos := a }
  | ProfileField.y_pos, FieldValue.intV a => { p with y_pos := a }
  | ProfileField.scale_factor, FieldValue.ratV q => { p with scale_factor := q }
  | ProfileField.z_range, FieldValue.pairRatV a b => { p with z_range := (a, b) }
  | ProfileField.box_width, FieldValue.ratV q => { p with box_width := q }
  | ProfileField.box_height, FieldValue.ratV q => { p with box_height := q }
  | ProfileField.contours, FieldValue.boolV b => { p with contours := b }
  | ProfileField.n_contours, FieldValue.natV n => { p with n_contours := n }
  | ProfileField.cmap, FieldValue.strV s => { p with cmap := s }
  | ProfileField.legend, FieldValue.regionV r => { p with legend := r }
  | ProfileField.profile, FieldValue.regionV r => { p with profile := r }
  | ProfileField.hot_area, FieldValue.regionV r => { p with hot_area := r }
  | _, _ => p

/-- Modelled from the spec: a single-field mutation is validated against the
§3 invariants before being committed; a violating value is rejected with
InvalidProfileField. -/
def setField (p : CalibrationProfile) (f : ProfileField) (v : FieldValue) :
    Except MutError CalibrationProfile :=
  if validProfile (rawSet p f v) then Except.ok (rawSet p f v)
  else Except.error MutError.invalidProfileField

/-- The Interactive Session applying one mutation: on rejection the prior
profile is retained and the error reported to the caller. -/
def mutate (p : CalibrationProfile) (f : ProfileField) (v : FieldValue) :
    CalibrationProfile × Option MutError :=
  match setField p f v with
  | Except.ok p2 => (p2, none)
  | Except.error e => (p, some e)

/-- A depth-sensor cell: a distance in millimetres, or an invalid reading
(the per-cell validity flag of the DepthFrame). -/
inductive DepthCell where
  | invalid
  | valid (d : Rat)
deriving DecidableEq, Repr

/-- Modelled from the spec: the immutable DepthFrame of §3 — a 2D grid of
scalar distances plus per-cell validity, indexed by sensor pixel. -/
structure DepthFrame where
  width : Nat
  height : Nat
  cellAt : Int → Int → DepthCell

/-- Rational stand-in for π used by the deterministic rotation resampler;
exactness only matters at the proven angles. -/
def piRat : Rat := 314159265 / 100000000

def degToRad (a : Int) : Rat := a * piRat / 180

/-- Truncated cosine series of the rotation kernel; exact at 0 rad. -/
def cosApprox (x : Rat) : Rat := 1 - x ^ 2 / 2 + x ^ 4 / 24 - x ^ 6 / 720

/-- Truncated sine series of the rotation kernel; exact at 0 rad. -/
def sinApprox (x : Rat) : Rat := x - x ^ 3 / 6 + x ^ 5 / 120

def cosDeg (a : Int) : Rat := cosApprox (degToRad a)

def sinDeg (a : Int) : Rat := sinApprox (degToRad a)

/-- Rotation center of the frame (spec step 1: rotate about the center). -/
def centerX (f : DepthFrame) : Rat := ((f.width : Rat) - 1) / 2

def centerY (f : DepthFrame) : Rat := ((f.height : Rat) - 1) / 2

/-- Source pixel x-coordinate sampled for target (x, y) under rotation by
`angle` about the frame center (nearest-neighbour resampling, the stated
deterministic choice). -/
def rotSrcX (f : DepthFrame) (angle : Int) (x y : Int) : Int :=
  round (centerX f + cosDeg angle * ((x : Rat) - centerX f)
    + sinDeg angle * ((y : Rat) - centerY f))

def rotSrcY (f : DepthFrame) (angle : Int) (x y : Int) : Int :=
  round (centerY f - sinDeg angle * ((x : Rat) - centerX f)
    + cosDeg angle * ((y : Rat) - centerY f))

/-- Modelled from the spec: pipeline step 1 — rotate by rot_angle about the
center; out-of-bounds samples after rotation are invalid margin, never a
wrap-around to the opposite edge. -/
def rotateSample (f : DepthFrame) (angle : Int) (x y : Int) : DepthCell :=
  if 0 ≤ rotSrcX f angle x y ∧ rotSrcX f angle x y < (f.width : Int) ∧
      0 ≤ rotSrcY f angle x y ∧ rotSrcY f angle x y < (f.height : Int) then
    f.cellAt (rotSrcX f angle x y) (rotSrcY f angle x y)
  else DepthCell.invalid

/-- Modelled from the spec: pipeline step 2 — crop to
`[x_lim.min, x_lim.max] × [y_lim.min, y_lim.max]` in rotated sensor space. -/
def cropSample (f : DepthFrame) (p : CalibrationProfile) (i j : Int) : DepthCell :=
  rotateSample f p.rot_angle (p.x_lim.1 + i) (p.y_lim.1 + j)

def croppedW (p : CalibrationProfile) : Int := p.x_lim.2 - p.x_lim.1

def croppedH (p : CalibrationProfile) : Int := p.y_lim.2 - p.y_lim.1

def scaledW (p : CalibrationProfile) : Int :=
  round ((croppedW p : Rat) * p.scale_factor)

def scaledH (p : CalibrationProfile) : Int :=
  round ((croppedH p : Rat) * p.scale_factor)

/-- Modelled from the spec: pipeline step 3 — scale the cropped rectangle by
scale_factor with nearest-neighbour resampling. -/
def scaleSample (f : DepthFrame) (p : CalibrationProfile) (i j : Int) : DepthCell :=
  cropSample f p (round ((i : Rat) / p.scale_factor))
    (round ((j : Rat) / p.scale_factor))

/-- A projector-canvas cell before colorization: either covered by the
placed, scaled sensor rectangle, or uncovered background. -/
inductive CoverCell where
  | notCovered
  | covered (c : DepthCell)
deriving DecidableEq, Repr

/-- Modelled from the spec: pipeline step 4 — place the scaled rectangle
into the projector canvas at (x_pos, y_pos); pixels not covered are
background. -/
def placedSample (f : DepthFrame) (p : CalibrationProfile) (u v : Int) :
    CoverCell :=
  if 0 ≤ u - p.x_pos ∧ u - p.x_pos < scaledW p ∧
      0 ≤ v - p.y_pos ∧ v - p.y_pos < scaledH p then
    CoverCell.covered (scaleSample f p (u - p.x_pos) (v - p.y_pos))
  else CoverCell.notCovered

/-- An output pixel: the white background, a colormap sample at a normalized
position t ∈ [0,1] of the named colormap, or a drawn contour line. -/
inductive Color where
  | white
  | mapped (cmapName : String) (t : Rat)
  | contourLine
deriving DecidableEq, Repr

/-- The n_contours equally spaced iso-levels over (z_min, z_max). -/
def contourLevels (p : CalibrationProfile) : List Rat :=
  (List.range p.n_contours).map fun k =>
    p.z_range.1 + ((k : Rat) + 1) * (p.z_range.2 - p.z_range.1)
      / ((p.n_contours : Rat) + 1)

def isContourLevel (p : CalibrationProfile) (d : Rat) : Bool :=
  (contourLevels p).any fun lvl => decide (d = lvl)

/-- Modelled from the spec: pipeline steps 5 and 6 — in-range valid depths
are normalized to [0,1] and mapped through cmap (with the contour overlay
drawn at the iso-levels when enabled); invalid, out-of-range and uncovered
cells are the white background, never a colormap color. -/
def colorize (p : CalibrationProfile) (c : CoverCell) : Color :=
  match c with
  | CoverCell.notCovered => Color.white
  | CoverCell.covered DepthCell.invalid => Color.white
  | CoverCell.covered (DepthCell.valid d) =>
    if d < p.z_range.1 ∨ p.z_range.2 < d then Color.white
    else if p.contours && isContourLevel p d then Color.contourLine
    else Color.mapped p.cmap ((d - p.z_range.1) / (p.z_range.2 - p.z_range.1))

/-- The projector-ready colorized frame over canvas pixel coordinates. -/
structure ColorFrame where
  pix : Int → Int → Color

/-- Modelled from the spec: the Transform Engine —
`render(frame, profile) → ColorFrame`, the pure composition of rotate, crop,
scale, place and depth-to-color mapping. -/
def render (f : DepthFrame) (p : CalibrationProfile) : ColorFrame :=
  ⟨fun u v => colorize p (placedSample f p u v)⟩

theorem cosDeg_zero : cosDeg 0 = 1 := by
  norm_num [cosDeg, cosApprox, degToRad]

theorem sinDeg_zero : sinDeg 0 = 0 := by
  norm_num [sinDeg, sinApprox, degToRad]

theorem rotSrcX_zero (f : DepthFrame) (x y : Int) : rotSrcX f 0 x y = x := by
  have h : centerX f + 1 * ((x : Rat) - centerX f) + 0 * ((y : Rat) - centerY f)
      = (x : Rat) := by ring
  rw [rotSrcX, cosDeg_zero, sinDeg_zero, h, round_intCast]

theorem rotSrcY_zero (f : DepthFrame) (x y : Int) : rotSrcY f 0 x y = y := by
  have h : centerY f - 0 * ((x : Rat) - centerX f) + 1 * ((y : Rat) - centerY f)
      = (y : Rat) := by ring
  rw [rotSrcY, cosDeg_zero, sinDeg_zero, h, round_intCast]

/-- Rotation by 0° is the identity resampling: in-bounds pixels sample
themselves, out-of-bounds targets are invalid margin. -/
theorem rotateSample_zero (f : DepthFrame) (x y : Int) :
    rotateSample f 0 x y =
      if 0 ≤ x ∧ x < (f.width : Int) ∧ 0 ≤ y ∧ y < (f.height : Int) then
        f.cellAt x y
      else DepthCell.invalid := by
  rw [rotateSample, rotSrcX_zero, rotSrcY_zero]

theorem round_div_one (a : Int) : round ((a : Rat) / 1) = a := by
  rw [div_one, round_intCast]

/-- Under identity geometry (0° rotation, full-frame crop, scale 1), canvas
pixel (px + x_pos, py + y_pos) is covered by sensor cell (px, py). -/
theorem placedSample_unit (f : DepthFrame) (p : CalibrationProfile) (px py : Int)
    (hrot : p.rot_angle = 0)
    (hxl : p.x_lim = (0, (f.width : Int)))
    (hyl : p.y_lim = (0, (f.height : Int)))
    (hsc : p.scale_factor = 1)
    (hpx1 : 0 ≤ px) (hpx2 : px < (f.width : Int))
    (hpy1 : 0 ≤ py) (hpy2 : py < (f.height : Int)) :
    placedSample f p (px + p.x_pos) (py + p.y_pos)
      = CoverCell.covered (f.cellAt px py) := by
  have hsw : scaledW p = (f.width : Int) := by
    rw [scaledW, croppedW, hxl, hsc]
    simp
  have hsh : scaledH p = (f.height : Int) := by
    rw [scaledH, croppedH, hyl, hsc]
    simp
  have hi : px + p.x_pos - p.x_pos = px := by ring
  have hj : py + p.y_pos - p.y_pos = py := by ring
  rw [placedSample, hi, hj, hsw, hsh, if_pos ⟨hpx1, hpx2, hpy1, hpy2⟩,
    scaleSample, hsc, round_div_one, round_div_one, cropSample, hxl, hyl, hrot]
  simp only [zero_add]
  rw [rotateSample_zero, if_pos ⟨hpx1, hpx2, hpy1, hpy2⟩]

/-- Claim C4: a canvas cell covered by an invalid sensor reading, or by a
depth value outside [z_min, z_max], renders as the white background, never
as a colormap color. -/
theorem background_fill_correct (f : DepthFrame) (p : CalibrationProfile)
    (u v : Int)
    (h : placedSample f p u v = CoverCell.covered DepthCell.invalid ∨
      ∃ d, placedSample f p u v = CoverCell.covered (DepthCell.valid d) ∧
        (d < p.z_range.1 ∨ p.z_range.2 < d)) :
    (render f p).pix u v = Color.white ∧
    ∀ nm t, (render f p).pix u v ≠ Color.mapped nm t := by
  have hw : (render f p).pix u v = Color.white := by
    rcases h with hinv | ⟨d, hcell, hout⟩
    · simp [render, colorize, hinv]
    · simp only [render, colorize, hcell]
      rw [if_pos hout]
  refine ⟨hw, ?_⟩
  rw [hw]
  intro nm t h2
  cases h2

/-- A 4×3 synthetic frame with an invalid reading at (0, 0) and an
out-of-range depth at (1, 1). -/
def testFrameC4 : DepthFrame where
  width := 4
  height := 3
  cellAt := fun x y =>
    if x = 0 ∧ y = 0 then DepthCell.invalid
    else if x = 1 ∧ y = 1 then DepthCell.valid 2000
    else DepthCell.valid 1000

/-- Identity-geometry profile over a 4×3 sensor, depth window [700, 1500]. -/
def testProfileC4 : CalibrationProfile where
  rot_angle := 0
  x_lim := (0, 4)
  y_lim := (0, 3)
  x_pos := 0
  y_pos := 0
  scale_factor := 1
  z_range := (700, 1500)
  box_width := 1000
  box_height := 800
  contours := true
  n_contours := 10
  cmap := "viridis"
  legend := none
  profile := none
  hot_area := none

/-- Witness for C4: on the synthetic frame, the out-of-range cell (depth
2000 against window [700, 1500]) and the invalid cell both render white. -/
theorem background_fill_correct_witness :
    (render testFrameC4 testProfileC4).pix 1 1 = Color.white ∧
    (render testFrameC4 testProfileC4).pix 0 0 = Color.white := by
  have h1 : placedSample testFrameC4 testProfileC4 1 1
      = CoverCell.covered (DepthCell.valid 2000) := by
    have h := placedSample_unit testFrameC4 testProfileC4 1 1 rfl rfl rfl rfl
      (by decide) (by decide) (by decide) (by decide)
    have h2 : testFrameC4.cellAt 1 1 = DepthCell.valid 2000 := by decide
    rw [h2] at h
    exact h
  have h0 : placedSample testFrameC4 testProfileC4 0 0
      = CoverCell.covered DepthCell.invalid := by
    have h := placedSample_unit testFrameC4 testProfileC4 0 0 rfl rfl rfl rfl
      (by decide) (by decide) (by decide) (by decide)
    have h2 : testFrameC4.cellAt 0 0 = DepthCell.invalid := by decide
    rw [h2] at h
    exact h
  exact ⟨(background_fill_correct testFrameC4 testProfileC4 1 1
      (Or.inr ⟨2000, h1, Or.inr (by decide)⟩)).1,
    (background_fill_correct testFrameC4 testProfileC4 0 0 (Or.inl h0)).1⟩

/-- Claim C5: with rotation 0°, crop [0,W]×[0,H], scale 1.0 and placement
(x_pos, y_pos), a marker at sensor pixel (px, py) appears at exactly canvas
pixel (px + x_pos, py + y_pos). -/
theorem crop_placement_correct (f : DepthFrame) (p : CalibrationProfile)
    (px py : Int)
    (hrot : p.rot_angle = 0)
    (hxl : p.x_lim = (0, (f.width : Int)))
    (hyl : p.y_lim = (0, (f.height : Int)))
    (hsc : p.scale_factor = 1)
    (hpx1 : 0 ≤ px) (hpx2 : px < (f.width : Int))
    (hpy1 : 0 ≤ py) (hpy2 : py < (f.height : Int)) :
    placedSample f p (px + p.x_pos) (py + p.y_pos)
      = CoverCell.covered (f.cellAt px py) ∧
    (render f p).pix (px + p.x_pos) (py + p.y_pos)
      = colorize p (CoverCell.covered (f.cellAt px py)) := by
  have h := placedSample_unit f p px py hrot hxl hyl hsc hpx1 hpx2 hpy1 hpy2
  refine ⟨h, ?_⟩
  rw [render]
  simp only []
  rw [h]

/-- A 4×3 synthetic frame with a marker (distinct depth 1000) at sensor
pixel (2, 1). -/
def testFrameC5 : DepthFrame where
  width := 4
  height := 3
  cellAt := fun x y =>
    if x = 2 ∧ y = 1 then DepthCell.valid 1000 else DepthCell.valid 900

/-- Identity-geometry profile with placement offset (5, 7). -/
def testProfileC5 : CalibrationProfile where
  rot_angle := 0
  x_lim := (0, 4)
  y_lim := (0, 3)
  x_pos := 5
  y_pos := 7
  scale_factor := 1
  z_range := (700, 1500)
  box_width := 1000
  box_height := 800
  contours := false
  n_contours := 0
  cmap := "viridis"
  legend := none
  profile := none
  hot_area := none

/-- Witness for C5: the marker at sensor pixel (2, 1) lands at canvas pixel
(2 + 5, 1 + 7) = (7, 8). -/
theorem crop_placement_correct_witness :
    placedSample testFrameC5 testProfileC5 7 8
      = CoverCell.covered (DepthCell.valid 1000) := by
  have h := (crop_placement_correct testFrameC5 testProfileC5 2 1 rfl rfl rfl
    rfl (by decide) (by decide) (by decide) (by decide)).1
  have h2 : testFrameC5.cellAt 2 1 = DepthCell.valid 1000 := by decide
  rw [h2] at h
  exact h

/-- Claim C1: saving a valid CalibrationProfile to a path and loading from
that path yields the same profile — `load(save(P)) == P` — with every field
of the data model serialized in the record. -/
theorem save_load_roundTrip (fs : FileSystem) (path : String)
    (p : CalibrationProfile) (hv : validProfile p = true) :
    load (save fs path p) path = Except.ok p := by
  simp [load, save, fsFind, serializeProfile, parseRecord, recFind,
    decodeIntF, decodeRatF, decodePairIntF, decodePairRatF, decodeBoolF,
    decodeNatF, decodeStrF, decodeRegionF, hv]

/-- Witness for C1: the default profile is valid and round-trips through an
empty store. -/
theorem save_load_roundTrip_witness :
    validProfile defaults = true ∧
    load (save [] "sandbox_test.dat" defaults) "sandbox_test.dat"
      = Except.ok defaults :=
  ⟨by decide, save_load_roundTrip [] "sandbox_test.dat" defaults (by decide)⟩

/-- Claim C2: a mutation whose raw result violates a §3 invariant leaves the
profile unchanged and reports InvalidProfileField; in particular setting
`x_lim = (100, 100)` is always rejected with the prior x_lim retained. -/
theorem mutation_rejects_invalid (p : CalibrationProfile) (f : ProfileField)
    (v : FieldValue) (hviol : validProfile (rawSet p f v) = false) :
    mutate p f v = (p, some MutError.invalidProfileField) ∧
    mutate p ProfileField.x_lim (FieldValue.pairIntV 100 100)
      = (p, some MutError.invalidProfileField) := by
  constructor
  · simp [mutate, setField, hviol]
  · have h : validProfile
        (rawSet p ProfileField.x_lim (FieldValue.pairIntV 100 100)) = false := by
      simp [rawSet, validProfile]
    simp [mutate, setField, h]

/-- Witness for C2: a degenerate z_range and the degenerate crop
`x_lim = (100, 100)` are both rejected on the default profile, which is
retained unchanged. -/
theorem mutation_rejects_invalid_witness :
    validProfile (rawSet defaults ProfileField.z_range (FieldValue.pairRatV 5 5))
      = false ∧
    mutate defaults ProfileField.z_range (FieldValue.pairRatV 5 5)
      = (defaults, some MutError.invalidProfileField) ∧
    mutate defaults ProfileField.x_lim (FieldValue.pairIntV 100 100)
      = (defaults, some MutError.invalidProfileField) :=
  ⟨by decide,
   (mutation_rejects_invalid defaults ProfileField.z_range
     (FieldValue.pairRatV 5 5) (by decide)).1,
   (mutation_rejects_invalid defaults ProfileField.z_range
     (FieldValue.pairRatV 5 5) (by decide)).2⟩

/-- Claim C3: load fails with IoError exactly on an unreadable path, with
ParseError exactly when the stored record is missing a required field, holds
an ill-typed field, or decodes to an invariant-violating profile; a
successfully loaded profile always satisfies every invariant; and on any
load failure the caller's existing profile is unchanged. -/
theorem load_error_contract (fs : FileSystem) (path : String) :
    (fsFind path fs = none → load fs path = Except.error LoadError.ioErr) ∧
    (∀ r, fsFind path fs = some r →
      (load fs path = Except.error LoadError.parseErr ↔
        parseRecord r = none ∨
        ∃ p, parseRecord r = some p ∧ validProfile p = false)) ∧
    (∀ p, load fs path = Except.ok p → validProfile p = true) ∧
    (∀ cur e, (loadInto cur fs path).2 = some e →
      (loadInto cur fs path).1 = cur) := by
  refine ⟨?_, ?_, ?_, ?_⟩
  · intro h
    simp [load, h]
  · intro r hr
    rw [load, hr]
    cases hp : parseRecord r with
    | none => simp [hp]
    | some p =>
      by_cases hv : validProfile p = true
      · simp [hp, hv]
      · simp only [Bool.not_eq_true] at hv
        simp [hp, hv]
  · intro p hp
    rw [load] at hp
    split at hp
    · exact absurd hp (by simp)
    · split at hp
      · exact absurd hp (by simp)
      · split at hp
        · cases hp
          assumption
        · exact absurd hp (by simp)
  · intro cur e
    simp only [loadInto]
    cases hl : load fs path with
    | ok p =>
      intro h
      simp at h
    | error e2 =>
      intro h
      rfl

/-- Witness for C3: a missing path gives IoError, an empty record gives
ParseError, and a failed load leaves the caller's profile untouched. -/
theorem load_error_contract_witness :
    load [] "missing.dat" = Except.error LoadError.ioErr ∧
    load [("empty.dat", [])] "empty.dat" = Except.error LoadError.parseErr ∧
    (loadInto defaults [] "missing.dat").1 = defaults :=
  ⟨(load_error_contract [] "missing.dat").1 rfl,
   ((load_error_contract [("empty.dat", [])] "empty.dat").2.1 [] rfl).mpr
     (Or.inl rfl),
   (load_error_contract [] "missing.dat").2.2.2 defaults LoadError.ioErr rfl⟩

/-- Modelled from the spec: the Sensor Source contract of §6 — a handle on
one physical (or dummy/synthetic) device whose poll returns a best-effort
DepthFrame. -/
structure SensorSource where
  deviceId : Nat
  dummy : Bool
  frame : DepthFrame

def SensorSource.poll (s : SensorSource) : DepthFrame := s.frame

/-- The Interactive Session states of spec §4.4. -/
inductive SessionState where
  | idle
  | live
  | closed
deriving DecidableEq, Repr

/-- Modelled from the spec: an Interactive Session owns an explicit
reference to its Sensor Source and its CalibrationProfile. -/
structure Session where
  state : SessionState
  profile : CalibrationProfile
  sensor : SensorSource

/-- Events of the session state machine: the two explicit session actions of
the control surface, a single-field parameter mutation, and the refresh
timer tick. -/
inductive SessionEvent where
  | startCalibration
  | closeCalibration
  | setParam (f : ProfileField) (v : FieldValue)
  | tick

/-- Modelled from the spec: the Interactive Session step — Idle → Live on
start calibration, Live → Closed on close calibration, no transition leaves
Closed; while Live a tick or a mutation renders the polled frame against
the (updated) profile and emits it to the Output Sink; elsewhere mutations
are accepted but nothing is rendered. -/
def sessionStep (s : Session) (e : SessionEvent) : Session × Option ColorFrame :=
  match e with
  | SessionEvent.startCalibration =>
    if s.state = SessionState.idle then
      ({ s with state := SessionState.live }, none)
    else (s, none)
  | SessionEvent.closeCalibration =>
    if s.state = SessionState.live then
      ({ s with state := SessionState.closed }, none)
    else (s, none)
  | SessionEvent.setParam f v =>
    if s.state = SessionState.live then
      ({ s with profile := (mutate s.profile f v).1 },
        some (render s.sensor.poll (mutate s.profile f v).1))
    else ({ s with profile := (mutate s.profile f v).1 }, none)
  | SessionEvent.tick =>
    if s.state = SessionState.live then
      (s, some (render s.sensor.poll s.profile))
    else (s, none)

/-- Claim C6: render is a pure deterministic function — identical inputs
give identical ColorFrames — and rendering mutates no session state, so two
consecutive ticks of a session emit bit-for-bit the same frame. -/
theorem render_deterministic (f : DepthFrame) (p : CalibrationProfile)
    (s : Session) :
    render f p = render f p ∧
    (sessionStep s SessionEvent.tick).1 = s ∧
    (sessionStep (sessionStep s SessionEvent.tick).1 SessionEvent.tick).2
      = (sessionStep s SessionEvent.tick).2 := by
  have hfix : (sessionStep s SessionEvent.tick).1 = s := by
    rw [sessionStep]
    split <;> rfl
  exact ⟨rfl, hfix, by rw [hfix]⟩

/-- Claim C8: the session state machine has exactly the transitions
Idle → Live on start calibration and Live → Closed on close calibration;
no transition leaves Closed, and in Closed a parameter mutation is still
applied to the profile but never triggers a render. -/
theorem session_state_machine (s : Session) (e : SessionEvent) :
    (s.state = SessionState.idle →
      (sessionStep s SessionEvent.startCalibration).1.state
        = SessionState.live) ∧
    (s.state = SessionState.live →
      (sessionStep s SessionEvent.closeCalibration).1.state
        = SessionState.closed) ∧
    (s.state = SessionState.closed →
      (sessionStep s e).1.state = SessionState.closed) ∧
    (∀ f v, s.state = SessionState.closed →
      (sessionStep s (SessionEvent.setParam f v)).1.profile
          = (mutate s.profile f v).1 ∧
      (sessionStep s (SessionEvent.setParam f v)).2 = none) ∧
    ((sessionStep s e).1.state ≠ s.state →
      (s.state = SessionState.idle ∧ e = SessionEvent.startCalibration ∧
        (sessionStep s e).1.state = SessionState.live) ∨
      (s.state = SessionState.live ∧ e = SessionEvent.closeCalibration ∧
        (sessionStep s e).1.state = SessionState.closed)) := by
  refine ⟨?_, ?_, ?_, ?_, ?_⟩
  · intro hs
    simp [sessionStep, hs]
  · intro hs
    simp [sessionStep, hs]
  · intro hs
    cases e with
    | startCalibration => simp [sessionStep, hs]
    | closeCalibration => simp [sessionStep, hs]
    | setParam f v => simp [sessionStep, hs]
    | tick => simp [sessionStep, hs]
  · intro f v hs
    constructor
    · simp [sessionStep, hs]
    · simp [sessionStep, hs]
  · intro hne
    cases e with
    | startCalibration =>
      by_cases hs : s.state = SessionState.idle
      · exact Or.inl ⟨hs, rfl, by simp [sessionStep, hs]⟩
      · exact absurd (by simp [sessionStep, hs]) hne
    | closeCalibration =>
      by_cases hs : s.state = SessionState.live
      · exact Or.inr ⟨hs, rfl, by simp [sessionStep, hs]⟩
      · exact absurd (by simp [sessionStep, hs]) hne
    | setParam f v =>
      refine absurd ?_ hne
      rw [sessionStep]
      split <;> rfl
    | tick =>
      refine absurd ?_ hne
      rw [sessionStep]
      split <;> rfl

/-- The deterministic synthetic frame of dummy mode. -/
def dummyFrame : DepthFrame where
  width := 4
  height := 3
  cellAt := fun _ _ => DepthCell.valid 1000

def dummySensor : SensorSource where
  deviceId := 0
  dummy := true
  frame := dummyFrame

def sessIdle : Session where
  state := SessionState.idle
  profile := defaults
  sensor := dummySensor

def sessLive : Session := { sessIdle with state := SessionState.live }

def sessClosed : Session := { sessIdle with state := SessionState.closed }

/-- Witness for C8: the concrete dummy-mode session takes the two
transitions, and once Closed it stays Closed with mutations unrendered. -/
theorem session_state_machine_witness :
    (sessionStep sessIdle SessionEvent.startCalibration).1.state
      = SessionState.live ∧
    (sessionStep sessLive SessionEvent.closeCalibration).1.state
      = SessionState.closed ∧
    (sessionStep sessClosed SessionEvent.tick).1.state = SessionState.closed ∧
    (sessionStep sessClosed
      (SessionEvent.setParam ProfileField.contours (FieldValue.boolV false))).2
      = none :=
  ⟨(session_state_machine sessIdle SessionEvent.tick).1 rfl,
   (session_state_machine sessLive SessionEvent.tick).2.1 rfl,
   (session_state_machine sessClosed SessionEvent.tick).2.2.1 rfl,
   ((session_state_machine sessClosed SessionEvent.tick).2.2.2.1
     ProfileField.contours (FieldValue.boolV false) rfl).2⟩

/-- A live kinect handle as the original sandbox.py hands out. -/
structure KinectHandle where
  deviceId : Nat
  dummy : Bool
deriving DecidableEq, Repr

/-- Modelled from the spec and the notebook's captured stderr: the state the
missing sandbox/sandbox.py keeps around kinect acquisition — how many live
handles exist on the physical device, and whether the import-time
RuntimeWarning ("Two kernels cannot access the kinect at the same time...")
has been issued. -/
structure KinectEnv where
  liveHandles : Nat
  warned : Bool
deriving DecidableEq, Repr

/-- Modelled from the notebook: importing sandbox.sandbox issues the
concurrent-access RuntimeWarning once; it inspects no handle state. -/
def importSandboxModule (e : KinectEnv) : KinectEnv :=
  { e with warned := true }

/-- Modelled from the notebook: Kinect(...) construction always hands out a
live handle — there is no failure path and no check against an already-open
handle; avoiding concurrent access is left to the operator, on pain of
"sudden death of the kernel". -/
def kinectInit (e : KinectEnv) (dummy : Bool) : KinectEnv × KinectHandle :=
  ({ e with liveHandles := e.liveHandles + 1 },
   { deviceId := 0, dummy := dummy })

/-- Counterexample to C7: after the module import and two constructions
against the same device, two live handles coexist — the second construction
did not fail, so exclusivity is not enforced by construction. -/
theorem second_acquire_succeeds :
    (kinectInit (kinectInit (importSandboxModule ⟨0, false⟩) true).1 true).1
      = { liveHandles := 2, warned := true } := rfl

/-- Amended C7: constructing a second handle while one is open succeeds and
leaves two concurrently live handles; the code only warns at module import
that concurrent access kills the kernel, and never arbitrates at runtime. -/
theorem kinect_no_construction_failure (e : KinectEnv) (b : Bool)
    (halready : 1 ≤ e.liveHandles) :
    (kinectInit e b).1.liveHandles = e.liveHandles + 1 ∧
    2 ≤ (kinectInit e b).1.liveHandles ∧
    (importSandboxModule e).warned = true :=
  ⟨rfl, by
    have h : (kinectInit e b).1.liveHandles = e.liveHandles + 1 := rfl
    omega, rfl⟩

/-- Witness for amended C7: with one handle already live, a second
construction still succeeds. -/
theorem kinect_no_construction_failure_witness :
    (kinectInit ⟨1, true⟩ true).1.liveHandles = 2 ∧
    2 ≤ (kinectInit ⟨1, true⟩ true).1.liveHandles ∧
    (importSandboxModule ⟨1, true⟩).warned = true :=
  kinect_no_construction_failure ⟨1, true⟩ true (by decide)

/-- Modelled from the notebook: the module-level registry of the last kinect
instance created, consulted by Calibration.create when no kinect was
associated. -/
structure SandboxModuleState where
  lastKinect : Option KinectHandle
deriving DecidableEq, Repr

/-- The original Calibration object keeps an optional associated kinect. -/
structure LegacyCalibration where
  associatedKinect : Option KinectHandle
deriving DecidableEq, Repr

/-- Modelled from the notebook's captured output ("no associated kinect
specified, using last kinect instance created"): Calibration.create resolves
its device to the explicitly associated kinect when present, otherwise falls
back to the module-global last instance created; the Bool flags that the
global fallback was used (and reported). -/
def calibrationCreate (m : SandboxModuleState) (c : LegacyCalibration) :
    Option KinectHandle × Bool :=
  match c.associatedKinect with
  | some k => (some k, false)
  | none => (m.lastKinect, true)

/-- Counterexample to C9: a Calibration with no associated kinect resolves
its device through the implicit module-global lookup, returning the last
instance created. -/
theorem create_uses_global_fallback :
    calibrationCreate ⟨some ⟨0, true⟩⟩ ⟨none⟩ = (some ⟨0, true⟩, true) := rfl

/-- Amended C9: Calibration.create uses an explicitly associated device when
one is set, and otherwise resolves the device by the implicit global
last-instance-created fallback, reporting that it did so. -/
theorem create_device_resolution (m : SandboxModuleState)
    (c : LegacyCalibration) :
    (∀ k, c.associatedKinect = some k →
      calibrationCreate m c = (some k, false)) ∧
    (c.associatedKinect = none →
      calibrationCreate m c = (m.lastKinect, true)) := by
  constructor
  · intro k hk
    rw [calibrationCreate, hk]
  · intro hk
    rw [calibrationCreate, hk]

/-- Witness for amended C9: explicit association wins; absent association
falls back to the global registry. -/
theorem create_device_resolution_witness :
    calibrationCreate ⟨some ⟨0, true⟩⟩ ⟨some ⟨1, false⟩⟩
      = (some ⟨1, false⟩, false) ∧
    calibrationCreate ⟨some ⟨0, true⟩⟩ ⟨none⟩ = (some ⟨0, true⟩, true) :=
  ⟨(create_device_resolution ⟨some ⟨0, true⟩⟩ ⟨some ⟨1, false⟩⟩).1
     ⟨1, false⟩ rfl,
   (create_device_resolution ⟨some ⟨0, true⟩⟩ ⟨none⟩).2 rfl⟩

/-- Modelled from the notebook's widget declaration
IntSlider(value=-180, min=-180, max=180) for rot_angle: an integer slider
clamping any requested value into [minVal, maxVal]. -/
structure IntSlider where
  minVal : Int
  maxVal : Int
  value : Int
deriving DecidableEq, Repr

/-- Setting a slider clamps the requested value into the slider's bounds. -/
def sliderSet (s : IntSlider) (v : Int) : IntSlider :=
  { s with value := Max.max s.minVal (Min.min s.maxVal v) }

/-- The rot_angle control of the calibration widget. -/
def rotAngleSlider : IntSlider where
  minVal := -180
  maxVal := 180
  value := -180

/-- Claim C10: every rot_angle value settable through the widget's integer
slider lies in [-180, 180], so a profile whose rot_angle comes from the
control satisfies the rot_angle range invariant by construction. -/
theorem rot_angle_slider_range (v : Int) :
    -180 ≤ (sliderSet rotAngleSlider v).value ∧
    (sliderSet rotAngleSlider v).value ≤ 180 ∧
    ∀ p : CalibrationProfile,
      -180 ≤ (rawSet p ProfileField.rot_angle
        (FieldValue.intV (sliderSet rotAngleSlider v).value)).rot_angle ∧
      (rawSet p ProfileField.rot_angle
        (FieldValue.intV (sliderSet rotAngleSlider v).value)).rot_angle
        ≤ 180 := by
  have h1 : -180 ≤ (sliderSet rotAngleSlider v).value := le_max_left _ _
  have h2 : (sliderSet rotAngleSlider v).value ≤ 180 :=
    max_le (by decide) (min_le_left _ _)
  exact ⟨h1, h2, fun p => ⟨h1, h2⟩⟩

end Sandbox
